import Mathlib

/-!
Verification of the copytrader core of the MetaTrader5-Docker-api
repository: the change detector, the master monitor, the lot calculator,
the retry manager, the slave executor and the sync engine
(src/copytrader/src/core and src/copytrader/src/services).

Python floats are modelled as rationals.  Python `round` uses banker's
rounding (round half to even); it is modelled by `pyRoundInt` (no digits,
returns an integer) and `pyRound2` (two decimal places).  Python dicts
keyed by ticket are modelled as association lists `List (Int × _)` with
`List.lookup`; iteration over a dict's key set is modelled by iterating
over the deduplicated key list.  Fallible RPC calls are modelled by
explicit outcome arguments.
-/

/-- Python `round(x)` with no digits: round half to even, returning an integer. -/
def pyRoundInt (x : ℚ) : ℤ :=
  let n := ⌊x⌋
  let r := x - n
  if r < 1/2 then n
  else if 1/2 < r then n + 1
  else if n % 2 = 0 then n else n + 1

/-- Python `round(x, 2)`: round half to even at two decimal places. -/
def pyRound2 (x : ℚ) : ℚ :=
  (pyRoundInt (x * 100) : ℚ) / 100

theorem pyRoundInt_intCast (n : ℤ) : pyRoundInt (n : ℚ) = n := by
  simp [pyRoundInt]

theorem le_pyRoundInt {a : ℤ} {x : ℚ} (h : (a : ℚ) ≤ x) : a ≤ pyRoundInt x := by
  have h1 : a ≤ ⌊x⌋ := Int.le_floor.mpr h
  unfold pyRoundInt
  dsimp only
  split
  · exact h1
  · split
    · omega
    · split <;> omega

theorem pyRoundInt_le {b : ℤ} {x : ℚ} (h : x ≤ (b : ℚ)) : pyRoundInt x ≤ b := by
  have h1 : ⌊x⌋ ≤ b := by
    have := Int.floor_le_floor h
    simpa using this
  have h2 : (⌊x⌋ : ℚ) ≤ x := Int.floor_le x
  unfold pyRoundInt
  dsimp only
  split
  · exact h1
  · have hlt : ⌊x⌋ < b := by
      rcases lt_or_eq_of_le h1 with hlt | heq
      · exact hlt
      · exfalso
        have hx : (1 : ℚ)/2 ≤ x - ⌊x⌋ := by linarith [not_lt.mp (by assumption)]
        have : ((⌊x⌋ : ℤ) : ℚ) = (b : ℚ) := by exact_mod_cast heq
        have hxb : x ≤ (⌊x⌋ : ℚ) := by rw [this]; exact h
        linarith
    split
    · omega
    · split <;> omega

theorem pyRound2_eq_self {x : ℚ} {k : ℤ} (h : x * 100 = (k : ℚ)) : pyRound2 x = x := by
  unfold pyRound2
  rw [h, pyRoundInt_intCast]
  have h100 : (100 : ℚ) ≠ 0 := by norm_num
  field_simp
  linarith

/-! ## Data model (src/copytrader/src/models) -/

/-- `PositionSnapshot` from models/position.py. -/
structure PositionSnapshot where
  ticket : Int
  symbol : String
  type : Int
  volume : ℚ
  price_open : ℚ
  sl : ℚ
  tp : ℚ
  magic : Int
  comment : String
  time : Int
  profit : ℚ
deriving DecidableEq, Repr

/-- `PartialClose` from models/position.py. -/
structure PartialClose where
  ticket : Int
  closed_volume : ℚ
  remaining_volume : ℚ
  original_volume : ℚ
deriving DecidableEq, Repr

/-- `Modification` from models/position.py. -/
structure Modification where
  ticket : Int
  old_sl : ℚ
  new_sl : ℚ
  old_tp : ℚ
  new_tp : ℚ
deriving DecidableEq, Repr

/-- `ChangeSet` from models/position.py. -/
structure ChangeSet where
  new_positions : List PositionSnapshot := []
  closed_positions : List PositionSnapshot := []
  partial_closes : List PartialClose := []
  modifications : List Modification := []
deriving DecidableEq, Repr

/-- `ChangeSet.is_empty` from models/position.py. -/
def ChangeSet.is_empty (c : ChangeSet) : Bool :=
  c.new_positions.isEmpty && c.closed_positions.isEmpty &&
    c.partial_closes.isEmpty && c.modifications.isEmpty

/-- A master-position dict keyed by ticket, as built by
`MasterMonitor.get_current_positions`. -/
abbrev Snapshots := List (Int × PositionSnapshot)

/-! ## Change detector (src/copytrader/src/core/detector.py) -/

/-- The state of a `ChangeDetector`. -/
structure ChangeDetectorState where
  previous_snapshot : Snapshots
  volume_tolerance : ℚ
deriving DecidableEq, Repr

/-- A fresh `ChangeDetector()` (default `volume_tolerance = 0.001`). -/
def ChangeDetectorState.init : ChangeDetectorState :=
  { previous_snapshot := [], volume_tolerance := 1/1000 }

/-- `ChangeDetector.compute_diff`: compare `current` against the stored
snapshot, emit opens, closes, partial closes (volume decreased beyond
tolerance) and modifications (SL or TP moved by more than `1e-5`), then
install `current` as the new baseline.  The volume-decrease check and the
SL/TP check are two independent `if`s in the source, so one ticket can
contribute both a `PartialClose` and a `Modification`. -/
def ChangeDetectorState.compute_diff (st : ChangeDetectorState) (current : Snapshots) :
    ChangeDetectorState × ChangeSet :=
  let current_tickets := (current.map Prod.fst).dedup
  let previous_tickets := (st.previous_snapshot.map Prod.fst).dedup
  let new_positions :=
    (current_tickets.filter (fun t => decide (t ∉ previous_tickets))).filterMap
      (fun t => current.lookup t)
  let closed_positions :=
    (previous_tickets.filter (fun t => decide (t ∉ current_tickets))).filterMap
      (fun t => st.previous_snapshot.lookup t)
  let common := current_tickets.filter (fun t => decide (t ∈ previous_tickets))
  let partial_closes := common.filterMap (fun t =>
    (current.lookup t).bind fun curr =>
      (st.previous_snapshot.lookup t).bind fun prev =>
        if curr.volume < prev.volume - st.volume_tolerance then
          some { ticket := t, closed_volume := pyRound2 (prev.volume - curr.volume),
                 remaining_volume := curr.volume, original_volume := prev.volume }
        else none)
  let modifications := common.filterMap (fun t =>
    (current.lookup t).bind fun curr =>
      (st.previous_snapshot.lookup t).bind fun prev =>
        if 1/100000 < |curr.sl - prev.sl| ∨ 1/100000 < |curr.tp - prev.tp| then
          some { ticket := t, old_sl := prev.sl, new_sl := curr.sl,
                 old_tp := prev.tp, new_tp := curr.tp }
        else none)
  ({ st with previous_snapshot := current },
   { new_positions := new_positions, closed_positions := closed_positions,
     partial_closes := partial_closes, modifications := modifications })

/-- `ChangeDetector.reset`. -/
def ChangeDetectorState.reset (st : ChangeDetectorState) : ChangeDetectorState :=
  { st with previous_snapshot := [] }

/-- `ChangeDetector.set_initial_snapshot`: install a baseline without
emitting changes. -/
def ChangeDetectorState.set_initial_snapshot (st : ChangeDetectorState)
    (positions : Snapshots) : ChangeDetectorState :=
  { st with previous_snapshot := positions }

/-! ### Association-list helper lemmas -/

theorem lookup_mem {β : Type} {l : List (Int × β)} {t : Int} {s : β}
    (h : l.lookup t = some s) : (t, s) ∈ l := by
  induction l with
  | nil => simp [List.lookup] at h
  | cons p l ih =>
    obtain ⟨k, b⟩ := p
    simp only [List.lookup] at h
    by_cases hk : t = k
    · subst hk
      simp only [beq_self_eq_true] at h
      cases h
      exact List.mem_cons_self _ _
    · have : (t == k) = false := beq_eq_false_iff_ne.mpr hk
      rw [this] at h
      exact List.mem_cons_of_mem _ (ih h)

theorem lookup_isSome_of_mem_keys {β : Type} {l : List (Int × β)} {t : Int}
    (h : t ∈ l.map Prod.fst) : ∃ s, l.lookup t = some s := by
  induction l with
  | nil => simp at h
  | cons p l ih =>
    obtain ⟨k, b⟩ := p
    simp only [List.map_cons, List.mem_cons] at h
    by_cases hk : t = k
    · subst hk
      exact ⟨b, by simp [List.lookup]⟩
    · have ht : t ∈ l.map Prod.fst := by
        rcases h with h | h
        · exact absurd h hk
        · exact h
      obtain ⟨s, hs⟩ := ih ht
      refine ⟨s, ?_⟩
      simp only [List.lookup, beq_eq_false_iff_ne.mpr hk]
      exact hs

theorem filterMap_tickets_sublist {α : Type} (g : α → Int) (f : Int → Option α)
    (ks : List Int) (hf : ∀ t x, f t = some x → g x = t) :
    ((ks.filterMap f).map g).Sublist ks := by
  induction ks with
  | nil => simp
  | cons a ks ih =>
    cases h : f a with
    | none =>
      rw [List.filterMap_cons, h]
      exact ih.cons a
    | some x =>
      rw [List.filterMap_cons, h, List.map_cons, hf a x h]
      exact ih.cons₂ a

/-! ### Claim C9 -/

/-- C9: for every snapshot map `S`, calling `set_initial_snapshot S` and then
`compute_diff S` returns an empty ChangeSet (no opens, closes, partials or
modifications), provided the detector's volume tolerance is nonnegative
(the constructor default is `0.001`). -/
theorem C9_set_initial_then_diff_empty (st : ChangeDetectorState) (S : Snapshots)
    (h : 0 ≤ st.volume_tolerance) :
    ((st.set_initial_snapshot S).compute_diff S).2.new_positions = [] ∧
    ((st.set_initial_snapshot S).compute_diff S).2.closed_positions = [] ∧
    ((st.set_initial_snapshot S).compute_diff S).2.partial_closes = [] ∧
    ((st.set_initial_snapshot S).compute_diff S).2.modifications = [] ∧
    ((st.set_initial_snapshot S).compute_diff S).2.is_empty = true := by
  have hfilter : ((S.map Prod.fst).dedup.filter
      (fun t => decide (t ∉ (S.map Prod.fst).dedup))) = [] := by
    apply List.filter_eq_nil_iff.mpr
    intro a ha
    simp [ha]
  have hcommon : ∀ t ∈ ((S.map Prod.fst).dedup.filter
      (fun t => decide (t ∈ (S.map Prod.fst).dedup))), t ∈ S.map Prod.fst := by
    intro t ht
    exact List.mem_dedup.mp (List.mem_filter.mp ht).1
  have h1 : ((st.set_initial_snapshot S).compute_diff S).2.new_positions = [] := by
    simp only [ChangeDetectorState.set_initial_snapshot, ChangeDetectorState.compute_diff,
      hfilter, List.filterMap_nil]
  have h2 : ((st.set_initial_snapshot S).compute_diff S).2.closed_positions = [] := by
    simp only [ChangeDetectorState.set_initial_snapshot, ChangeDetectorState.compute_diff,
      hfilter, List.filterMap_nil]
  have h3 : ((st.set_initial_snapshot S).compute_diff S).2.partial_closes = [] := by
    simp only [ChangeDetectorState.set_initial_snapshot, ChangeDetectorState.compute_diff]
    apply List.filterMap_eq_nil_iff.mpr
    intro t ht
    obtain ⟨s, hs⟩ := lookup_isSome_of_mem_keys (hcommon t ht)
    rw [hs]
    have hv : ¬ s.volume < s.volume - st.volume_tolerance := by linarith
    simp [hv]
  have h4 : ((st.set_initial_snapshot S).compute_diff S).2.modifications = [] := by
    simp only [ChangeDetectorState.set_initial_snapshot, ChangeDetectorState.compute_diff]
    apply List.filterMap_eq_nil_iff.mpr
    intro t ht
    obtain ⟨s, hs⟩ := lookup_isSome_of_mem_keys (hcommon t ht)
    rw [hs]
    have hsl : ¬ (1 : ℚ)/100000 < |s.sl - s.sl| := by simp
    have htp : ¬ (1 : ℚ)/100000 < |s.tp - s.tp| := by simp
    simp [hsl, htp]
  refine ⟨h1, h2, h3, h4, ?_⟩
  simp [ChangeSet.is_empty, h1, h2, h3, h4]

/-- A concrete master position used to instantiate theorems. -/
def snapEUR : PositionSnapshot :=
  { ticket := 101, symbol := "EURUSD", type := 0, volume := 1,
    price_open := 1, sl := 0, tp := 0, magic := 0, comment := "", time := 0, profit := 0 }

/-- A concrete one-position snapshot map. -/
def snapshots101 : Snapshots := [(101, snapEUR)]

/-- Witness for C9 at a fresh detector and a concrete one-position snapshot. -/
theorem C9_set_initial_then_diff_empty_witness :
    (0 : ℚ) ≤ ChangeDetectorState.init.volume_tolerance ∧
    ((ChangeDetectorState.init.set_initial_snapshot snapshots101).compute_diff
        snapshots101).2.is_empty = true :=
  ⟨by norm_num [ChangeDetectorState.init],
   (C9_set_initial_then_diff_empty ChangeDetectorState.init snapshots101
      (by norm_num [ChangeDetectorState.init])).2.2.2.2⟩

/-! ### Claim C3 -/

/-- Before state for the C3 counterexample: ticket 1 with volume 10 and SL 1. -/
def snapC3Before : PositionSnapshot :=
  { ticket := 1, symbol := "EURUSD", type := 0, volume := 10,
    price_open := 1, sl := 1, tp := 0, magic := 0, comment := "", time := 0, profit := 0 }

/-- After state for the C3 counterexample: volume dropped to 4 and SL moved to 2. -/
def snapC3After : PositionSnapshot :=
  { ticket := 1, symbol := "EURUSD", type := 0, volume := 4,
    price_open := 1, sl := 2, tp := 0, magic := 0, comment := "", time := 0, profit := 0 }

/-- C3 counterexample: a ticket whose volume decreased and whose SL also
changed appears in `partial_closes` AND in `modifications` of the same
`compute_diff` pass, so a ticket is not limited to one of the four
sequences. -/
theorem C3_counterexample :
    1 ∈ (((ChangeDetectorState.mk [(1, snapC3Before)] (1/1000)).compute_diff
        [(1, snapC3After)]).2.partial_closes.map PartialClose.ticket) ∧
    1 ∈ (((ChangeDetectorState.mk [(1, snapC3Before)] (1/1000)).compute_diff
        [(1, snapC3After)]).2.modifications.map Modification.ticket) := by
  constructor <;>
    norm_num [ChangeDetectorState.compute_diff, snapC3Before, snapC3After, List.lookup]

/-- C3 amended: in one `compute_diff` pass each ticket appears at most once
in each of the four sequences, a ticket in `new_positions` appears in none
of the other three, and a ticket in `closed_positions` appears in none of
the other three; however a ticket common to both snapshots may appear in
both `partial_closes` and `modifications` (see `C3_counterexample`).
The snapshot maps are assumed well formed: each stored snapshot's ticket
equals its dict key, as `MasterMonitor.get_current_positions` builds them. -/
theorem C3_ticket_in_at_most_one_group (st : ChangeDetectorState) (cur : Snapshots)
    (t : Int)
    (hprev : ∀ p ∈ st.previous_snapshot, (p.2).ticket = p.1)
    (hcur : ∀ p ∈ cur, (p.2).ticket = p.1) :
    ((((st.compute_diff cur).2.new_positions.map PositionSnapshot.ticket).count t ≤ 1) ∧
     (((st.compute_diff cur).2.closed_positions.map PositionSnapshot.ticket).count t ≤ 1) ∧
     (((st.compute_diff cur).2.partial_closes.map PartialClose.ticket).count t ≤ 1) ∧
     (((st.compute_diff cur).2.modifications.map Modification.ticket).count t ≤ 1)) ∧
    (t ∈ ((st.compute_diff cur).2.new_positions.map PositionSnapshot.ticket) →
      t ∉ ((st.compute_diff cur).2.closed_positions.map PositionSnapshot.ticket) ∧
      t ∉ ((st.compute_diff cur).2.partial_closes.map PartialClose.ticket) ∧
      t ∉ ((st.compute_diff cur).2.modifications.map Modification.ticket)) ∧
    (t ∈ ((st.compute_diff cur).2.closed_positions.map PositionSnapshot.ticket) →
      t ∉ ((st.compute_diff cur).2.new_positions.map PositionSnapshot.ticket) ∧
      t ∉ ((st.compute_diff cur).2.partial_closes.map PartialClose.ticket) ∧
      t ∉ ((st.compute_diff cur).2.modifications.map Modification.ticket)) := by
  have curNodup : ((cur.map Prod.fst).dedup.filter
      (fun t => decide (t ∉ (st.previous_snapshot.map Prod.fst).dedup))).Nodup :=
    (List.nodup_dedup _).filter _
  have prevNodup : ((st.previous_snapshot.map Prod.fst).dedup.filter
      (fun t => decide (t ∉ (cur.map Prod.fst).dedup))).Nodup :=
    (List.nodup_dedup _).filter _
  have commonNodup : ((cur.map Prod.fst).dedup.filter
      (fun t => decide (t ∈ (st.previous_snapshot.map Prod.fst).dedup))).Nodup :=
    (List.nodup_dedup _).filter _
  have hOpen : (((st.compute_diff cur).2.new_positions.map PositionSnapshot.ticket)).Sublist
      ((cur.map Prod.fst).dedup.filter
        (fun t => decide (t ∉ (st.previous_snapshot.map Prod.fst).dedup))) := by
    simp only [ChangeDetectorState.compute_diff]
    exact filterMap_tickets_sublist _ _ _ (fun t x hx => hcur _ (lookup_mem hx))
  have hClose : (((st.compute_diff cur).2.closed_positions.map PositionSnapshot.ticket)).Sublist
      ((st.previous_snapshot.map Prod.fst).dedup.filter
        (fun t => decide (t ∉ (cur.map Prod.fst).dedup))) := by
    simp only [ChangeDetectorState.compute_diff]
    exact filterMap_tickets_sublist _ _ _ (fun t x hx => hprev _ (lookup_mem hx))
  have hPart : (((st.compute_diff cur).2.partial_closes.map PartialClose.ticket)).Sublist
      ((cur.map Prod.fst).dedup.filter
        (fun t => decide (t ∈ (st.previous_snapshot.map Prod.fst).dedup))) := by
    simp only [ChangeDetectorState.compute_diff]
    apply filterMap_tickets_sublist
    intro u x hx
    simp only [Option.bind_eq_some] at hx
    obtain ⟨c, hc, p, hp, hx⟩ := hx
    split at hx
    · cases hx
      rfl
    · exact Option.noConfusion hx
  have hMod : (((st.compute_diff cur).2.modifications.map Modification.ticket)).Sublist
      ((cur.map Prod.fst).dedup.filter
        (fun t => decide (t ∈ (st.previous_snapshot.map Prod.fst).dedup))) := by
    simp only [ChangeDetectorState.compute_diff]
    apply filterMap_tickets_sublist
    intro u x hx
    simp only [Option.bind_eq_some] at hx
    obtain ⟨c, hc, p, hp, hx⟩ := hx
    split at hx
    · cases hx
      rfl
    · exact Option.noConfusion hx
  have memOpen : ∀ u, u ∈ ((st.compute_diff cur).2.new_positions.map PositionSnapshot.ticket) →
      u ∈ (cur.map Prod.fst).dedup ∧ u ∉ (st.previous_snapshot.map Prod.fst).dedup := by
    intro u hu
    have := hOpen.subset hu
    have h := List.mem_filter.mp this
    exact ⟨h.1, by simpa using h.2⟩
  have memClose : ∀ u, u ∈ ((st.compute_diff cur).2.closed_positions.map PositionSnapshot.ticket) →
      u ∈ (st.previous_snapshot.map Prod.fst).dedup ∧ u ∉ (cur.map Prod.fst).dedup := by
    intro u hu
    have := hClose.subset hu
    have h := List.mem_filter.mp this
    exact ⟨h.1, by simpa using h.2⟩
  have memPart : ∀ u, u ∈ ((st.compute_diff cur).2.partial_closes.map PartialClose.ticket) →
      u ∈ (cur.map Prod.fst).dedup ∧ u ∈ (st.previous_snapshot.map Prod.fst).dedup := by
    intro u hu
    have := hPart.subset hu
    have h := List.mem_filter.mp this
    exact ⟨h.1, by simpa using h.2⟩
  have memMod : ∀ u, u ∈ ((st.compute_diff cur).2.modifications.map Modification.ticket) →
      u ∈ (cur.map Prod.fst).dedup ∧ u ∈ (st.previous_snapshot.map Prod.fst).dedup := by
    intro u hu
    have := hMod.subset hu
    have h := List.mem_filter.mp this
    exact ⟨h.1, by simpa using h.2⟩
  refine ⟨⟨?_, ?_, ?_, ?_⟩, ?_, ?_⟩
  · exact le_trans (hOpen.count_le t) (List.nodup_iff_count_le_one.mp curNodup t)
  · exact le_trans (hClose.count_le t) (List.nodup_iff_count_le_one.mp prevNodup t)
  · exact le_trans (hPart.count_le t) (List.nodup_iff_count_le_one.mp commonNodup t)
  · exact le_trans (hMod.count_le t) (List.nodup_iff_count_le_one.mp commonNodup t)
  · intro ht
    obtain ⟨hc, hnp⟩ := memOpen t ht
    refine ⟨fun h => hnp (memClose t h).1, fun h => hnp (memPart t h).2,
      fun h => hnp (memMod t h).2⟩
  · intro ht
    obtain ⟨hp, hnc⟩ := memClose t ht
    refine ⟨fun h => hnc (memOpen t h).1, fun h => hnc (memPart t h).1,
      fun h => hnc (memMod t h).1⟩

/-- A freshly opened position with ticket 3, used in the C3 witness. -/
def snapC3New : PositionSnapshot :=
  { ticket := 3, symbol := "GBPUSD", type := 1, volume := 2,
    price_open := 1, sl := 0, tp := 0, magic := 0, comment := "", time := 0, profit := 0 }

/-- Witness for C3 at a concrete detector state: ticket 3 (only in the
current snapshot) is counted at most once in the opens and is absent from
the closed positions. -/
theorem C3_ticket_in_at_most_one_group_witness :
    ¬ (3 ∈ (((ChangeDetectorState.mk [(1, snapC3Before)] (1/1000)).compute_diff
        [(1, snapC3After), (3, snapC3New)]).2.closed_positions.map PositionSnapshot.ticket)) ∧
    (((ChangeDetectorState.mk [(1, snapC3Before)] (1/1000)).compute_diff
        [(1, snapC3After), (3, snapC3New)]).2.new_positions.map PositionSnapshot.ticket).count 3 ≤ 1 := by
  have h := C3_ticket_in_at_most_one_group
    (ChangeDetectorState.mk [(1, snapC3Before)] (1/1000)) [(1, snapC3After), (3, snapC3New)] 3
    (by intro p hp
        simp only [List.mem_cons, List.not_mem_nil, or_false] at hp
        rw [hp]; rfl)
    (by intro p hp
        simp only [List.mem_cons, List.not_mem_nil, or_false] at hp
        rcases hp with hp | hp <;> (rw [hp]; rfl))
  refine ⟨?_, h.1.1⟩
  intro hmem
  have hm := h.2.2 hmem
  have hnew : (((ChangeDetectorState.mk [(1, snapC3Before)] (1/1000)).compute_diff
      [(1, snapC3After), (3, snapC3New)]).2.new_positions.map PositionSnapshot.ticket) = [3] := rfl
  exact hm.1 (by rw [hnew]; exact List.mem_singleton.mpr rfl)

/-! ## Account state (src/copytrader/src/models/account.py) -/

/-- `AccountState` from models/account.py (the datetime heartbeat field is
outside the embedding). -/
structure AccountState where
  name : String
  role : String
  host : String
  port : Int
  connected : Bool := false
  positions_count : Nat := 0
  balance : ℚ := 0
  equity : ℚ := 0
  margin_level : ℚ := 0
  error_count : Nat := 0
  last_error : Option String := none
deriving DecidableEq, Repr

/-- `AccountState.record_error`. -/
def AccountState.record_error (st : AccountState) (error : String) : AccountState :=
  { st with
    error_count := st.error_count + 1
    last_error := some error
    connected := false }

/-- The fields of an MT5 `account_info()` result that the code reads. -/
structure AccountInfo where
  login : Int
  balance : ℚ
  equity : ℚ
  margin_level : ℚ
deriving DecidableEq, Repr

/-- `AccountState.update_from_account_info` (`if info:` guards the update). -/
def AccountState.update_from_account_info (st : AccountState)
    (info : Option AccountInfo) : AccountState :=
  match info with
  | some i =>
    { st with
      balance := i.balance
      equity := i.equity
      margin_level := i.margin_level
      connected := true
      error_count := 0
      last_error := none }
  | none => st

/-! ## Master monitor (src/copytrader/src/core/monitor.py) -/

/-- The state of a `MasterMonitor` relevant to position polling:
its `AccountState`, its detector and whether `self.mt5` is set. -/
structure MasterMonitorState where
  state : AccountState
  detector : ChangeDetectorState
  mt5Present : Bool
deriving DecidableEq, Repr

/-- Outcome of one `self.mt5.positions_get()` round trip: a position list,
a `None` result, or a raised exception. -/
inductive FetchOutcome where
  | ok (positions : Snapshots)
  | null
  | exn (error : String)
deriving DecidableEq, Repr

/-- `MasterMonitor.get_current_positions`: returns `{}` when `self.mt5` is
unset or the RPC returns `None`; on an exception it records the error on
the account state and returns `{}`. -/
def MasterMonitorState.get_current_positions (m : MasterMonitorState)
    (fetch : FetchOutcome) : MasterMonitorState × Snapshots :=
  if m.mt5Present = false then (m, [])
  else
    match fetch with
    | .ok ps => (m, ps)
    | .null => (m, [])
    | .exn e => ({ m with state := m.state.record_error e }, [])

/-- `MasterMonitor.detect_changes`: fetch current positions, update
`positions_count`, then run the detector against the previous snapshot. -/
def MasterMonitorState.detect_changes (m : MasterMonitorState)
    (fetch : FetchOutcome) : MasterMonitorState × ChangeSet :=
  let res := m.get_current_positions fetch
  let m1 := res.1
  let current := res.2
  let m2 := { m1 with state :=
    { m1.state with positions_count := (current.map Prod.fst).dedup.length } }
  let res2 := m2.detector.compute_diff current
  ({ m2 with detector := res2.1 }, res2.2)

/-! ### Claim C1 -/

/-- A connected monitor tracking one master position (ticket 101). -/
def monitorC1 : MasterMonitorState :=
  { state := { name := "master", role := "master", host := "mt5-master", port := 8001,
               connected := true, positions_count := 1 },
    detector := { previous_snapshot := [(101, snapEUR)], volume_tolerance := 1/1000 },
    mt5Present := true }

/-- C1: when `positions_get` raises during `detect_changes`, the monitor
does record `last_error`, increment `error_count` and set
`connected = false` — but the returned ChangeSet is NOT empty: the
previously tracked position 101 is emitted as a closed position (and the
detector baseline is wiped), because `get_current_positions` swallows the
exception into an empty dict that `compute_diff` then treats as "all
positions closed". -/
theorem C1_fetch_error_emits_closes :
    (monitorC1.detect_changes (FetchOutcome.exn "RPC timeout")).1.state.last_error
        = some "RPC timeout" ∧
    (monitorC1.detect_changes (FetchOutcome.exn "RPC timeout")).1.state.error_count = 1 ∧
    (monitorC1.detect_changes (FetchOutcome.exn "RPC timeout")).1.state.connected = false ∧
    (monitorC1.detect_changes (FetchOutcome.exn "RPC timeout")).2.closed_positions
        = [snapEUR] ∧
    (monitorC1.detect_changes (FetchOutcome.exn "RPC timeout")).2.is_empty = false ∧
    (monitorC1.detect_changes (FetchOutcome.exn "RPC timeout")).1.detector.previous_snapshot
        = [] :=
  ⟨rfl, rfl, rfl, rfl, rfl, rfl⟩

/-! ## Lot calculator (src/copytrader/src/services/lot_calculator.py) -/

/-- `LotMode` from models/enums.py. -/
inductive LotMode where
  | EXACT
  | FIXED
  | MULTIPLIER
  | PROPORTIONAL
deriving DecidableEq, Repr

/-- `SlaveConfig` from models/account.py (login credentials are outside the
embedding). -/
structure SlaveConfig where
  name : String
  host : String
  port : Int := 8001
  enabled : Bool := true
  lot_mode : LotMode := LotMode.EXACT
  lot_value : ℚ := 1
  max_lot : ℚ := 10
  min_lot : ℚ := 1/100
  symbols_filter : Option (List String) := none
  magic_number : Int := 123456
  invert_trades : Bool := false
  max_slippage : Int := 20
deriving DecidableEq, Repr

/-- `SlaveConfig.should_copy_symbol`. -/
def SlaveConfig.should_copy_symbol (c : SlaveConfig) (symbol : String) : Bool :=
  match c.symbols_filter with
  | none => true
  | some l => l.contains symbol

/-- The fields of an MT5 `symbol_info()` result that the code reads. -/
structure SymbolInfo where
  visible : Bool := true
  filling_mode : Nat := 1
  volume_min : ℚ := 1/100
  volume_max : ℚ := 1000
  volume_step : ℚ := 1/100
deriving DecidableEq, Repr

/-- The state of a `LotCalculator`. -/
structure LotCalculator where
  config : SlaveConfig
  master_balance : ℚ := 0
  slave_balance : ℚ := 0
deriving DecidableEq, Repr

/-- The mode dispatch at the head of `LotCalculator.calculate`
(the `if/elif` chain computing the pre-clamp lot): EXACT copies the master
lot, FIXED uses `lot_value`, MULTIPLIER scales by `lot_value`, and
PROPORTIONAL scales by `slave_balance / master_balance`, falling back to
an exact copy when `master_balance ≤ 0`. -/
def LotCalculator.mode_lot (c : LotCalculator) (master_lot : ℚ) : ℚ :=
  match c.config.lot_mode with
  | LotMode.EXACT => master_lot
  | LotMode.FIXED => c.config.lot_value
  | LotMode.MULTIPLIER => master_lot * c.config.lot_value
  | LotMode.PROPORTIONAL =>
    if 0 < c.master_balance then master_lot * (c.slave_balance / c.master_balance)
    else master_lot

/-- `LotCalculator.calculate`: the mode lot, clamped to
`[min_lot, max_lot]`, then (when a symbol_info is supplied) clamped to
`[volume_min, volume_max]` and snapped to `volume_step` via
`round(lot / step) * step`, and finally rounded to two decimals. -/
def LotCalculator.calculate (c : LotCalculator) (master_lot : ℚ)
    (symbol_info : Option SymbolInfo) : ℚ :=
  let lot := c.mode_lot master_lot
  let lot := max c.config.min_lot (min c.config.max_lot lot)
  let lot :=
    match symbol_info with
    | some si =>
      let lot := max si.volume_min lot
      let lot := min si.volume_max lot
      if 0 < si.volume_step then (pyRoundInt (lot / si.volume_step) : ℚ) * si.volume_step
      else lot
    | none => lot
  pyRound2 lot

/-! ### Claim C7 -/

/-- The S4 slave configuration: PROPORTIONAL mode, `min_lot=0.01`,
`max_lot=10`. -/
def slaveS4 : SlaveConfig :=
  { name := "slave1", host := "mt5-slave1", lot_mode := LotMode.PROPORTIONAL }

/-- The S4 calculator: `master_balance=10000`, `slave_balance=2500`. -/
def calcS4 : LotCalculator :=
  { config := slaveS4, master_balance := 10000, slave_balance := 2500 }

/-- The S4 symbol constraints: `volume_min=0.01`, `volume_max=1000`,
`volume_step=0.01`. -/
def siS4 : SymbolInfo := { }

/-- C7: in PROPORTIONAL mode the pre-clamp lot is
`master_lot * slave_balance / master_balance` when `master_balance > 0`
and falls back to the exact master lot when `master_balance ≤ 0`; at the
S4 inputs (`master_balance=10000`, `slave_balance=2500`, master lot 0.40,
step 0.01) the final result is 0.10. -/
theorem C7_proportional_lot (c : LotCalculator) (m : ℚ)
    (hmode : c.config.lot_mode = LotMode.PROPORTIONAL) :
    (0 < c.master_balance → c.mode_lot m = m * (c.slave_balance / c.master_balance)) ∧
    (c.master_balance ≤ 0 → c.mode_lot m = m) ∧
    calcS4.calculate (2/5) (some siS4) = 1/10 := by
  refine ⟨?_, ?_, ?_⟩
  · intro h
    simp only [LotCalculator.mode_lot, hmode]
    rw [if_pos h]
  · intro h
    simp only [LotCalculator.mode_lot, hmode]
    rw [if_neg (not_lt.mpr h)]
  · norm_num [LotCalculator.calculate, LotCalculator.mode_lot, calcS4, slaveS4, siS4,
      pyRound2, pyRoundInt, min_def, max_def]

/-- Witness for C7 at the S4 inputs. -/
theorem C7_proportional_lot_witness :
    calcS4.mode_lot (2/5) = (2/5) * ((2500 : ℚ) / 10000) ∧
    calcS4.calculate (2/5) (some siS4) = 1/10 := by
  have h := C7_proportional_lot calcS4 (2/5) rfl
  refine ⟨?_, h.2.2⟩
  have h1 := h.1 (by norm_num [calcS4])
  simpa [calcS4] using h1

/-! ### Claim C6 -/

/-- An EXACT-mode slave with the default user lot bounds. -/
def slaveC6 : SlaveConfig := { name := "s", host := "h" }

/-- A lot calculator for `slaveC6`. -/
def calcC6 : LotCalculator := { config := slaveC6 }

/-- Symbol constraints with `volume_step = 0.007` (admitted by the claim's
hypotheses `volume_min ≤ volume_max` and `volume_step > 0`). -/
def siC6 : SymbolInfo := { volume_step := 7/1000 }

/-- C6 counterexample: with `volume_step = 0.007`, a master lot of 0.10 in
EXACT mode yields 0.10 (the step snap gives 0.098 and the final
`round(_, 2)` moves it back to 0.10), which is NOT an integer multiple of
`volume_step`, although `volume_min ≤ volume_max` and `volume_step > 0`
hold — the final two-decimal rounding breaks the multiple-of-step
property. -/
theorem C6_counterexample :
    siC6.volume_min ≤ siC6.volume_max ∧ 0 < siC6.volume_step ∧
    calcC6.calculate (1/10) (some siC6) = 1/10 ∧
    ¬ ∃ k : ℤ, calcC6.calculate (1/10) (some siC6) = (k : ℚ) * siC6.volume_step := by
  have heval : calcC6.calculate (1/10) (some siC6) = 1/10 := by
    norm_num [LotCalculator.calculate, LotCalculator.mode_lot, calcC6, slaveC6, siC6,
      pyRound2, pyRoundInt, min_def, max_def]
  refine ⟨by norm_num [siC6], by norm_num [siC6], heval, ?_⟩
  rintro ⟨k, hk⟩
  rw [heval] at hk
  have hk7 : (7 : ℚ) * (k : ℚ) = 100 := by
    rw [show siC6.volume_step = 7/1000 from rfl] at hk
    field_simp at hk
    linarith
  have hk7' : (7 : ℤ) * k = 100 := by exact_mod_cast hk7
  omega

/-- C6 amended: `calculate` is a pure function of its arguments (the
embedding makes determinism immediate), and the containment and
multiple-of-step conclusions hold under the hypotheses the counterexample
forces: the four volume bounds are integer multiples of `volume_step`,
`volume_step` is a positive integer multiple of 0.01 (so the final
two-decimal rounding is exact), and the user interval `[min_lot, max_lot]`
meets the symbol interval `[volume_min, volume_max]`.  Then the result
lies in the intersection and is an integer multiple of `volume_step`. -/
theorem C6_lot_in_bounds (c : LotCalculator) (m : ℚ) (si : SymbolInfo)
    (i1 i2 i3 i4 mm : ℤ)
    (h1 : c.config.min_lot = (i1 : ℚ) * si.volume_step)
    (h2 : c.config.max_lot = (i2 : ℚ) * si.volume_step)
    (h3 : si.volume_min = (i3 : ℚ) * si.volume_step)
    (h4 : si.volume_max = (i4 : ℚ) * si.volume_step)
    (hstep : si.volume_step = (mm : ℚ) / 100)
    (hmm : 0 < mm)
    (hAB : max c.config.min_lot si.volume_min ≤ min c.config.max_lot si.volume_max) :
    max c.config.min_lot si.volume_min ≤ c.calculate m (some si) ∧
    c.calculate m (some si) ≤ min c.config.max_lot si.volume_max ∧
    ∃ k : ℤ, c.calculate m (some si) = (k : ℚ) * si.volume_step := by
  have hmmQ : (0 : ℚ) < (mm : ℚ) := by exact_mod_cast hmm
  have hs : 0 < si.volume_step := by
    rw [hstep]
    positivity
  set l1 : ℚ := max c.config.min_lot (min c.config.max_lot (c.mode_lot m)) with hl1
  set l2 : ℚ := max si.volume_min l1 with hl2
  set l3 : ℚ := min si.volume_max l2 with hl3
  have hcal : c.calculate m (some si)
      = pyRound2 ((pyRoundInt (l3 / si.volume_step) : ℚ) * si.volume_step) := by
    simp only [LotCalculator.calculate, hl1, hl2, hl3]
    rw [if_pos hs]
  have hminmax : c.config.min_lot ≤ c.config.max_lot :=
    le_trans (le_trans (le_max_left _ _) hAB) (min_le_left _ _)
  have hminvmax : c.config.min_lot ≤ si.volume_max :=
    le_trans (le_trans (le_max_left _ _) hAB) (min_le_right _ _)
  have hvminmaxlot : si.volume_min ≤ c.config.max_lot :=
    le_trans (le_trans (le_max_right _ _) hAB) (min_le_left _ _)
  have hl1a : c.config.min_lot ≤ l1 := le_max_left _ _
  have hl1b : l1 ≤ c.config.max_lot := max_le hminmax (min_le_left _ _)
  have hl2a : si.volume_min ≤ l2 := le_max_left _ _
  have hl2b : c.config.min_lot ≤ l2 := le_trans hl1a (le_max_right _ _)
  have hl2c : l2 ≤ c.config.max_lot := max_le hvminmaxlot hl1b
  have hl3a : l3 ≤ si.volume_max := min_le_left _ _
  have hl3b : l3 ≤ c.config.max_lot := le_trans (min_le_right _ _) hl2c
  have hl3A : max c.config.min_lot si.volume_min ≤ l3 :=
    le_min (le_trans hAB (min_le_right _ _)) (max_le hl2b hl2a)
  have hl3B : l3 ≤ min c.config.max_lot si.volume_max := le_min hl3b hl3a
  have hA : max c.config.min_lot si.volume_min = ((max i1 i3 : ℤ) : ℚ) * si.volume_step := by
    rw [h1, h3, Int.cast_max, max_mul_of_nonneg _ _ hs.le]
  have hB : min c.config.max_lot si.volume_max = ((min i2 i4 : ℤ) : ℚ) * si.volume_step := by
    rw [h2, h4, Int.cast_min, min_mul_of_nonneg _ _ hs.le]
  have hka : (max i1 i3 : ℤ) ≤ pyRoundInt (l3 / si.volume_step) := by
    apply le_pyRoundInt
    rw [le_div_iff₀ hs]
    rw [hA] at hl3A
    exact hl3A
  have hkb : pyRoundInt (l3 / si.volume_step) ≤ (min i2 i4 : ℤ) := by
    apply pyRoundInt_le
    rw [div_le_iff₀ hs]
    rw [hB] at hl3B
    exact hl3B
  set k : ℤ := pyRoundInt (l3 / si.volume_step) with hkdef
  have hsnap : pyRound2 ((k : ℚ) * si.volume_step) = (k : ℚ) * si.volume_step := by
    apply pyRound2_eq_self (k := k * mm)
    rw [hstep]
    push_cast
    field_simp
  have hres : c.calculate m (some si) = (k : ℚ) * si.volume_step := by
    rw [hcal]
    exact hsnap
  refine ⟨?_, ?_, ⟨k, hres⟩⟩
  · rw [hres, hA]
    exact mul_le_mul_of_nonneg_right (by exact_mod_cast hka) hs.le
  · rw [hres, hB]
    exact mul_le_mul_of_nonneg_right (by exact_mod_cast hkb) hs.le

/-- Witness for C6 at the S4 inputs (`volume_step = 0.01`, all bounds
multiples of it, master lot 0.40 in PROPORTIONAL mode). -/
theorem C6_lot_in_bounds_witness :
    max calcS4.config.min_lot siS4.volume_min ≤ calcS4.calculate (2/5) (some siS4) ∧
    calcS4.calculate (2/5) (some siS4) ≤ min calcS4.config.max_lot siS4.volume_max ∧
    ∃ k : ℤ, calcS4.calculate (2/5) (some siS4) = (k : ℚ) * siS4.volume_step :=
  C6_lot_in_bounds calcS4 (2/5) siS4 1 1000 1 100000 1
    (by norm_num [calcS4, slaveS4, siS4])
    (by norm_num [calcS4, slaveS4, siS4])
    (by norm_num [siS4])
    (by norm_num [siS4])
    (by norm_num [siS4])
    (by norm_num)
    (by norm_num [calcS4, slaveS4, siS4])

/-! ## Retry manager (src/copytrader/src/services/retry_manager.py) -/

/-- `OperationStatus` from models/enums.py. -/
inductive OperationStatus where
  | PENDING
  | PROCESSING
  | COMPLETED
  | FAILED
deriving DecidableEq, Repr

/-- The fields of an `order_send` result that the retry manager reads. -/
structure TradeResult where
  retcode : Int
  order : Int
  comment : String
deriving DecidableEq, Repr

/-- `TradeRetcode.DONE.value` (10009). -/
def retcodeDONE : Int := 10009

/-- `RetryManager.NON_RETRYABLE_CODES`: REJECT, INVALID_VOLUME,
INVALID_PRICE, INVALID_STOPS, NO_MONEY. -/
def NON_RETRYABLE_CODES : List Int := [10006, 10014, 10015, 10016, 10019]

/-- `RetryManager._is_retryable`. -/
def is_retryable (retcode : Int) : Bool :=
  decide (retcode ∉ NON_RETRYABLE_CODES)

/-- `QueuedOperation` from models/position.py (payload, callbacks and the
datetime fields are outside the embedding). -/
structure QueuedOperation where
  master_ticket : Int
  slave_name : String
  attempts : Nat := 0
  max_attempts : Nat := 3
  status : OperationStatus := OperationStatus.PENDING
  error_message : Option String := none
deriving DecidableEq, Repr

/-- Outcome of one `await executor(operation.payload)` call: a result
object, a `None` result, or a raised exception. -/
inductive AttemptOutcome where
  | res (r : Option TradeResult)
  | exn (error : String)
deriving DecidableEq, Repr

/-- The `while operation.attempts < operation.max_attempts` loop of
`RetryManager.execute_with_retry`, with the remaining attempt budget as
fuel (each iteration increments `attempts` by exactly one).  `oracle n`
is the outcome of the `n`-th attempt.  A DONE retcode completes the
operation; a non-retryable retcode fails it immediately; any other
outcome schedules a retry (the backoff sleep is outside the embedding);
an exhausted budget fails the operation. -/
def retryLoop (oracle : Nat → AttemptOutcome) :
    Nat → QueuedOperation → QueuedOperation × Bool
  | 0, op => ({ op with status := OperationStatus.FAILED }, false)
  | Nat.succ fuel, op =>
    let op1 := { op with attempts := op.attempts + 1, status := OperationStatus.PROCESSING }
    match oracle op1.attempts with
    | AttemptOutcome.res (some r) =>
      if r.retcode = retcodeDONE then
        ({ op1 with status := OperationStatus.COMPLETED }, true)
      else
        let op2 := { op1 with
          error_message := some ("Retcode: " ++ toString r.retcode ++ " - " ++ r.comment) }
        if is_retryable r.retcode then
          retryLoop oracle fuel { op2 with status := OperationStatus.PENDING }
        else
          ({ op2 with status := OperationStatus.FAILED }, false)
    | AttemptOutcome.res none =>
      retryLoop oracle fuel { op1 with
        error_message := some "Retcode: None"
        status := OperationStatus.PENDING }
    | AttemptOutcome.exn e =>
      retryLoop oracle fuel { op1 with
        error_message := some e
        status := OperationStatus.PENDING }

/-- `RetryManager.execute_with_retry` on an operation, driven by the
attempt-outcome oracle. -/
def execute_with_retry (oracle : Nat → AttemptOutcome) (op : QueuedOperation) :
    QueuedOperation × Bool :=
  retryLoop oracle (op.max_attempts - op.attempts) op

/-- An attempt outcome on which the loop retries: an exception, a `None`
result, or a result whose retcode is neither DONE nor non-retryable. -/
def retryableOutcome : AttemptOutcome → Prop
  | AttemptOutcome.res (some r) =>
    r.retcode ≠ retcodeDONE ∧ is_retryable r.retcode = true
  | AttemptOutcome.res none => True
  | AttemptOutcome.exn _ => True

theorem retryLoop_succ_nonretryable (oracle : Nat → AttemptOutcome)
    (fuel : Nat) (op : QueuedOperation) (r : TradeResult)
    (hout : oracle (op.attempts + 1) = AttemptOutcome.res (some r))
    (hr : r.retcode ∈ NON_RETRYABLE_CODES) :
    (retryLoop oracle (fuel + 1) op).2 = false ∧
    (retryLoop oracle (fuel + 1) op).1.status = OperationStatus.FAILED ∧
    (retryLoop oracle (fuel + 1) op).1.attempts = op.attempts + 1 := by
  have hne : r.retcode ≠ retcodeDONE := by
    intro he
    rw [he] at hr
    norm_num [NON_RETRYABLE_CODES, retcodeDONE] at hr
  have hnr : is_retryable r.retcode = false := by
    simp [is_retryable, hr]
  simp [retryLoop, hout, hne, hnr]

theorem retryLoop_succ_retryable (oracle : Nat → AttemptOutcome)
    (fuel : Nat) (op : QueuedOperation)
    (h : retryableOutcome (oracle (op.attempts + 1))) :
    ∃ op', retryLoop oracle (fuel + 1) op = retryLoop oracle fuel op' ∧
      op'.attempts = op.attempts + 1 ∧ op'.max_attempts = op.max_attempts := by
  cases hout : oracle (op.attempts + 1) with
  | res ro =>
    cases ro with
    | some r =>
      rw [hout] at h
      obtain ⟨hne, hretry⟩ := h
      refine ⟨{ op with
        attempts := op.attempts + 1
        status := OperationStatus.PENDING
        error_message :=
          some ("Retcode: " ++ toString r.retcode ++ " - " ++ r.comment) }, ?_, rfl, rfl⟩
      simp [retryLoop, hout, hne, hretry]
    | none =>
      refine ⟨{ op with
        attempts := op.attempts + 1
        status := OperationStatus.PENDING
        error_message := some "Retcode: None" }, ?_, rfl, rfl⟩
      simp [retryLoop, hout]
  | exn e =>
    refine ⟨{ op with
      attempts := op.attempts + 1
      status := OperationStatus.PENDING
      error_message := some e }, ?_, rfl, rfl⟩
    simp [retryLoop, hout]

theorem retryLoop_nonretryable (oracle : Nat → AttemptOutcome) :
    ∀ (k fuel : Nat) (op : QueuedOperation), k < fuel →
    (∀ j, op.attempts + 1 ≤ j → j ≤ op.attempts + k → retryableOutcome (oracle j)) →
    (∃ r, oracle (op.attempts + k + 1) = AttemptOutcome.res (some r) ∧
        r.retcode ∈ NON_RETRYABLE_CODES) →
    (retryLoop oracle fuel op).2 = false ∧
    (retryLoop oracle fuel op).1.status = OperationStatus.FAILED ∧
    (retryLoop oracle fuel op).1.attempts = op.attempts + k + 1 := by
  intro k
  induction k with
  | zero =>
    intro fuel op hk hpre hbad
    obtain ⟨r, hout, hr⟩ := hbad
    cases fuel with
    | zero => omega
    | succ f =>
      simpa using retryLoop_succ_nonretryable oracle f op r (by simpa using hout) hr
  | succ k ih =>
    intro fuel op hk hpre hbad
    cases fuel with
    | zero => omega
    | succ f =>
      obtain ⟨op', heq, hatt, hmax⟩ := retryLoop_succ_retryable oracle f op
        (hpre (op.attempts + 1) (le_refl _) (by omega))
      rw [heq]
      have hpre' : ∀ j, op'.attempts + 1 ≤ j → j ≤ op'.attempts + k →
          retryableOutcome (oracle j) := by
        intro j hj1 hj2
        rw [hatt] at hj1 hj2
        exact hpre j (by omega) (by omega)
      have hbad' : ∃ r, oracle (op'.attempts + k + 1) = AttemptOutcome.res (some r) ∧
          r.retcode ∈ NON_RETRYABLE_CODES := by
        obtain ⟨r, hout, hr⟩ := hbad
        refine ⟨r, ?_, hr⟩
        rw [hatt]
        have hidx : op.attempts + 1 + k + 1 = op.attempts + (k + 1) + 1 := by omega
        rw [hidx]
        exact hout
      have hrec := ih f op' (by omega) hpre' hbad'
      refine ⟨hrec.1, hrec.2.1, ?_⟩
      rw [hrec.2.2, hatt]
      omega

/-! ### Claim C8 -/

/-- C8: if the attempts before attempt `k+1` were all retryable and
attempt `k+1` returns a result whose retcode is in
`NON_RETRYABLE_CODES` (REJECT 10006, INVALID_VOLUME 10014,
INVALID_PRICE 10015, INVALID_STOPS 10016, NO_MONEY 10019) while budget
remains, then `execute_with_retry` stops with status FAILED and returns
false, and the attempt that received the non-retryable retcode is the
last one: the final attempt counter equals `k+1` more than the starting
one, so no further attempt is made. -/
theorem C8_nonretryable_stops (oracle : Nat → AttemptOutcome)
    (op : QueuedOperation) (k : Nat)
    (hk : op.attempts + k < op.max_attempts)
    (hpre : ∀ j, op.attempts + 1 ≤ j → j ≤ op.attempts + k → retryableOutcome (oracle j))
    (hbad : ∃ r, oracle (op.attempts + k + 1) = AttemptOutcome.res (some r) ∧
        r.retcode ∈ NON_RETRYABLE_CODES) :
    (execute_with_retry oracle op).2 = false ∧
    (execute_with_retry oracle op).1.status = OperationStatus.FAILED ∧
    (execute_with_retry oracle op).1.attempts = op.attempts + k + 1 := by
  unfold execute_with_retry
  exact retryLoop_nonretryable oracle k (op.max_attempts - op.attempts) op
    (by omega) hpre hbad

/-- A queued open operation that has not been attempted yet. -/
def opC8 : QueuedOperation := { master_ticket := 1, slave_name := "slave1" }

/-- An executor whose every attempt returns `NO_MONEY (10019)`. -/
def oracleC8 : Nat → AttemptOutcome :=
  fun _ => AttemptOutcome.res (some { retcode := 10019, order := 0, comment := "No money" })

/-- Witness for C8: a first attempt rejected with NO_MONEY fails the
operation after exactly one attempt. -/
theorem C8_nonretryable_stops_witness :
    (execute_with_retry oracleC8 opC8).2 = false ∧
    (execute_with_retry oracleC8 opC8).1.status = OperationStatus.FAILED ∧
    (execute_with_retry oracleC8 opC8).1.attempts = 1 := by
  have h := C8_nonretryable_stops oracleC8 opC8 0
    (by norm_num [opC8])
    (fun j h1 h2 => absurd (le_trans h1 h2) (by norm_num [opC8]))
    ⟨{ retcode := 10019, order := 0, comment := "No money" }, rfl,
      by norm_num [NON_RETRYABLE_CODES]⟩
  simpa [opC8] using h

/-! ## Slave executor (src/copytrader/src/core/executor.py) -/

/-- The fields of a `symbol_info_tick()` result that the code reads. -/
structure Tick where
  bid : ℚ
  ask : ℚ
deriving DecidableEq, Repr

/-- The trade request dict built by `SlaveExecutor.close_position`
(`action=DEAL(1)`, counter-side order type, `position` = the ticket being
closed). -/
structure OrderRequest where
  action : Int
  symbol : String
  volume : ℚ
  type : Int
  position : Int
  price : ℚ
  deviation : Int
  magic : Int
  comment : String
  type_filling : Int
deriving DecidableEq, Repr

/-- The `type_filling` selection from the `symbol_info.filling_mode`
bitmask: FOK (bit 0) wins, else IOC (bit 1), else RETURN; missing
symbol_info leaves the default 0 (FOK). -/
def filling_mode_of (symbol_info : Option SymbolInfo) : Int :=
  match symbol_info with
  | some si =>
    if si.filling_mode &&& 1 ≠ 0 then 0
    else if si.filling_mode &&& 2 ≠ 0 then 1
    else 2
  | none => 0

/-- `SlaveExecutor.close_position`, up to the `order_send` call: the
request actually sent (or `none` when the method bails out: no RPC client,
position not found among `positions_get()`, or no tick).  The position is
located by a linear scan of all positions; `close_volume` is
`volume if volume else pos.volume`, so a `None` volume AND a `0.0` volume
both fall back to the position's full current volume.  BUY positions are
closed by a SELL at the bid, SELL positions by a BUY at the ask. -/
def close_position (cfg : SlaveConfig) (mt5Present : Bool)
    (all_positions : Option (List PositionSnapshot)) (tick : Option Tick)
    (symbol_info : Option SymbolInfo) (slave_ticket : Int) (volume : Option ℚ) :
    Option OrderRequest :=
  if mt5Present = false then none
  else
    match (all_positions.getD []).find? (fun p => p.ticket == slave_ticket) with
    | none => none
    | some pos =>
      let close_volume :=
        match volume with
        | some v => if v = 0 then pos.volume else v
        | none => pos.volume
      match tick with
      | none => none
      | some tk =>
        let price := if pos.type = 0 then tk.bid else tk.ask
        let close_type := if pos.type = 0 then 1 else 0
        some { action := 1, symbol := pos.symbol, volume := close_volume,
               type := close_type, position := slave_ticket, price := price,
               deviation := cfg.max_slippage, magic := cfg.magic_number,
               comment := "CT:close", type_filling := filling_mode_of symbol_info }

/-- `SlaveExecutor._calculate_sl`: distance-preserving stop loss for the
open path (`sl_distance = |master.price_open − master.sl|`; BUY subtracts,
SELL adds; a non-positive master SL yields 0 = unset). -/
def calculate_sl (master_pos : PositionSnapshot) (entry_price : ℚ)
    (direction : Int) : ℚ :=
  if master_pos.sl ≤ 0 then 0
  else
    let sl_distance := |master_pos.price_open - master_pos.sl|
    if direction = 0 then entry_price - sl_distance
    else entry_price + sl_distance

/-- `SlaveExecutor._calculate_tp`: distance-preserving take profit for the
open path (BUY adds, SELL subtracts). -/
def calculate_tp (master_pos : PositionSnapshot) (entry_price : ℚ)
    (direction : Int) : ℚ :=
  if master_pos.tp ≤ 0 then 0
  else
    let tp_distance := |master_pos.price_open - master_pos.tp|
    if direction = 0 then entry_price + tp_distance
    else entry_price - tp_distance

/-- `SlaveExecutor.get_trade_direction`: invert the master side iff
`invert_trades`. -/
def get_trade_direction (cfg : SlaveConfig) (master_type : Int) : Int :=
  if cfg.invert_trades then (if master_type = 0 then 1 else 0)
  else master_type

/-! ## Sync engine (src/copytrader/src/core/engine.py) -/

/-- `PositionMapping` from models/position.py (datetimes and row id are
outside the embedding). -/
structure PositionMapping where
  master_ticket : Int
  slave_ticket : Int
  slave_name : String
  master_volume : ℚ
  slave_volume : ℚ
  symbol : String
  direction : Int
  status : String := "open"
deriving DecidableEq, Repr

/-- `SyncEngine._calculate_slave_sltp`: despite its docstring and the
in-code comment that the *distance*, not the absolute value, must be
preserved, the function ignores the slave entry price and the direction
and passes the master's absolute `new_sl` / `new_tp` straight through
(the source marks this with a TODO). -/
def calculate_slave_sltp (modification : Modification) (slave_entry_price : ℚ)
    (direction : Int) : ℚ × ℚ :=
  (modification.new_sl, modification.new_tp)

/-- The per-mapping body of `SyncEngine._handle_partial_close`:
`close_ratio = closed_volume / original_volume`,
`slave_close_volume = round(mapping.slave_volume * close_ratio, 2)`,
raised to `symbol_info.volume_min` when the slave position and its
symbol_info are available and the computed volume is below the minimum;
the close task is issued with that volume and `mapping.slave_volume` is
decremented by it.  The close task's result (`closeResult`) is collected
by `asyncio.gather(..., return_exceptions=True)` and discarded, and
`update_mapping_volume` then persists `mapping.slave_volume` for every
mapping: the subtraction and the persisted value do not depend on the
close outcome.  `slavePresent` models `self.slaves.get(mapping.slave_name)`
being found; when it is not, the mapping is left untouched and no close is
issued.  Returns the updated mapping and the issued close volume. -/
def handle_partial_close_row (pc : PartialClose) (mapping : PositionMapping)
    (slavePresent : Bool) (slave_pos : Option PositionSnapshot)
    (symbol_info : Option SymbolInfo) (closeResult : Option TradeResult) :
    PositionMapping × Option ℚ :=
  if slavePresent = false then (mapping, none)
  else
    let close_ratio := pc.closed_volume / pc.original_volume
    let slave_close_volume := pyRound2 (mapping.slave_volume * close_ratio)
    let slave_close_volume :=
      match slave_pos, symbol_info with
      | some _, some si =>
        if slave_close_volume < si.volume_min then si.volume_min else slave_close_volume
      | _, _ => slave_close_volume
    ({ mapping with slave_volume := mapping.slave_volume - slave_close_volume },
     some slave_close_volume)

/-- The executor-facing state of one slave in `SyncEngine.slaves`:
its config, whether `self.mt5` is set, and the `_initialized` /
`state.connected` flags. -/
structure SlaveExecutorState where
  config : SlaveConfig
  mt5Present : Bool := false
  initialized : Bool := false
  connected : Bool := false
deriving DecidableEq, Repr

/-- `SlaveExecutor.shutdown`: clears `_initialized` and `connected` but
keeps the `self.mt5` reference. -/
def SlaveExecutorState.shutdown (s : SlaveExecutorState) : SlaveExecutorState :=
  { s with initialized := false, connected := false }

/-- `SlaveExecutor.is_connected`. -/
def SlaveExecutorState.is_connected (s : SlaveExecutorState) : Bool :=
  s.initialized && s.connected

/-- The engine's `self.slaves` dict. -/
abbrev Slaves := List (String × SlaveExecutorState)

/-- `SyncEngine.disable_slave` on the `close_positions=False` path (the
claim concerns processing after disabling): an unknown name fails; a known
slave gets `config.enabled = False` and its connection shut down, but it
stays in the `slaves` dict. -/
def disable_slave (slaves : Slaves) (name : String) : Slaves × Bool :=
  if (slaves.lookup name).isSome then
    (slaves.map (fun p =>
      if p.1 = name then
        (p.1, SlaveExecutorState.shutdown
          { p.2 with config := { p.2.config with enabled := false } })
      else p), true)
  else (slaves, false)

/-- The slaves to which `SyncEngine._handle_new_position` issues
`open_position` (via `_copy_to_slave`): every slave in the dict whose
symbol filter accepts the master position's symbol — the `enabled` flag is
not consulted. -/
def handle_new_position_targets (slaves : Slaves) (master_pos : PositionSnapshot) :
    List String :=
  (slaves.filter (fun p => (p.2.config).should_copy_symbol master_pos.symbol)).map Prod.fst

/-- The `(slave_name, slave_ticket)` pairs to which
`SyncEngine._handle_close_position` issues `close_position`: every mapping
of the master ticket whose slave name is in the dict — the `enabled` flag
is not consulted. -/
def handle_close_position_targets (slaves : Slaves)
    (position_map : List (Int × List PositionMapping)) (master_ticket : Int) :
    List (String × Int) :=
  match position_map.lookup master_ticket with
  | none => []
  | some mappings =>
    (mappings.filter (fun mp => (slaves.lookup mp.slave_name).isSome)).map
      (fun mp => (mp.slave_name, mp.slave_ticket))

/-! ### Claim C10 -/

/-- C10: on a connected executor, when the position is found by the linear
scan, a close volume of `0.0` (falsy in Python, like an omitted volume)
produces exactly the same order as omitting the volume, and the order
carries the position's full current volume — a computed partial-close
volume of exactly 0 silently becomes a full close. -/
theorem C10_zero_volume_is_full_close (cfg : SlaveConfig)
    (ps : List PositionSnapshot) (tk : Tick) (symbol_info : Option SymbolInfo)
    (slave_ticket : Int) (pos : PositionSnapshot)
    (hfind : ps.find? (fun p => p.ticket == slave_ticket) = some pos) :
    close_position cfg true (some ps) (some tk) symbol_info slave_ticket (some 0)
      = close_position cfg true (some ps) (some tk) symbol_info slave_ticket none ∧
    ∃ req, close_position cfg true (some ps) (some tk) symbol_info slave_ticket (some 0)
      = some req ∧ req.volume = pos.volume := by
  constructor
  · simp [close_position, hfind]
  · have heq : close_position cfg true (some ps) (some tk) symbol_info slave_ticket (some 0)
        = some { action := 1, symbol := pos.symbol, volume := pos.volume,
                 type := if pos.type = 0 then 1 else 0, position := slave_ticket,
                 price := if pos.type = 0 then tk.bid else tk.ask,
                 deviation := cfg.max_slippage, magic := cfg.magic_number,
                 comment := "CT:close", type_filling := filling_mode_of symbol_info } := by
      simp [close_position, hfind]
    exact ⟨_, heq, rfl⟩

/-- The slave position that the C10 witness closes. -/
def posC10 : PositionSnapshot :=
  { ticket := 7001, symbol := "EURUSD", type := 0, volume := 5,
    price_open := 1, sl := 0, tp := 0, magic := 123456, comment := "CT:1",
    time := 0, profit := 0 }

/-- Witness for C10: closing ticket 7001 with volume 0.0 sends the
position's full volume 5. -/
theorem C10_zero_volume_is_full_close_witness :
    ∃ req, close_position { name := "s1", host := "h" } true (some [posC10])
        (some { bid := 1, ask := 1 }) none 7001 (some 0) = some req ∧
      req.volume = posC10.volume :=
  (C10_zero_volume_is_full_close { name := "s1", host := "h" } [posC10]
    { bid := 1, ask := 1 } none 7001 posC10 (by simp [posC10])).2

/-! ### Claim C2 -/

/-- The master position behind the C2 modification: opened at 1.10, SL
moved to 1.095 (distance 0.005). -/
def masterPosC2 : PositionSnapshot :=
  { ticket := 1, symbol := "EURUSD", type := 0, volume := 1/10,
    price_open := 11/10, sl := 219/200, tp := 0, magic := 0, comment := "",
    time := 0, profit := 0 }

/-- The C2 modification event: `new_sl = 1.095`. -/
def modC2 : Modification :=
  { ticket := 1, old_sl := 109/100, new_sl := 219/200, old_tp := 0, new_tp := 0 }

/-- C2 (code-bug evidence): for every modification, slave entry price and
direction, `_calculate_slave_sltp` returns the master's absolute
`new_sl` / `new_tp` unchanged — it does not depend on the slave's entry
price at all — whereas the open-path distance formula `_calculate_sl`
does: for the modification `new_sl = 1.095` of a master opened at 1.10
and a slave BUY entry at 1.20, distance preservation gives 1.195 but the
modify path sends 1.095. -/
theorem C2_modify_sltp_pass_through :
    (∀ (modification : Modification) (e : ℚ) (d : Int),
      calculate_slave_sltp modification e d = (modification.new_sl, modification.new_tp)) ∧
    calculate_sl masterPosC2 (6/5) 0 = 239/200 ∧
    (calculate_slave_sltp modC2 (6/5) 0).1 = 219/200 ∧
    (calculate_slave_sltp modC2 (6/5) 0).1 ≠ calculate_sl masterPosC2 (6/5) 0 := by
  have hsl : calculate_sl masterPosC2 (6/5) 0 = 239/200 := by
    rw [calculate_sl]
    norm_num [masterPosC2, abs_of_pos]
  refine ⟨fun modification e d => rfl, hsl, rfl, ?_⟩
  rw [hsl]
  norm_num [calculate_slave_sltp, modC2]

/-! ### Claim C4 -/

/-- The C4 partial close: master went 0.10 → 0.04 (closed 0.06). -/
def partialC4 : PartialClose :=
  { ticket := 1, closed_volume := 3/50, remaining_volume := 1/25, original_volume := 1/10 }

/-- The C4 mapping: slave volume 0.10 mirroring master ticket 1. -/
def mappingC4 : PositionMapping :=
  { master_ticket := 1, slave_ticket := 7001, slave_name := "slave1",
    master_volume := 1/10, slave_volume := 1/10, symbol := "EURUSD", direction := 0 }

/-- The slave position looked up during the C4 partial close. -/
def posC4 : PositionSnapshot :=
  { ticket := 7001, symbol := "EURUSD", type := 0, volume := 1/10,
    price_open := 1, sl := 0, tp := 0, magic := 123456, comment := "CT:1",
    time := 0, profit := 0 }

/-- The failed close result of the C4 counterexample (REJECT). -/
def failedC4 : TradeResult := { retcode := 10006, order := 0, comment := "Rejected" }

/-- C4 counterexample: the close fails (REJECT 10006, not DONE), yet
`mapping.slave_volume` is decremented from 0.10 to 0.04 anyway — a failed
close does NOT leave `mapping.slave_volume` unchanged, because the code
subtracts before awaiting the close and persists unconditionally. -/
theorem C4_counterexample :
    failedC4.retcode ≠ retcodeDONE ∧
    (handle_partial_close_row partialC4 mappingC4 true (some posC4) (some siS4)
        (some failedC4)).1.slave_volume = 1/25 ∧
    (1/25 : ℚ) ≠ mappingC4.slave_volume := by
  refine ⟨by norm_num [failedC4, retcodeDONE], ?_, by norm_num [mappingC4]⟩
  norm_num [handle_partial_close_row, partialC4, mappingC4, posC4, siS4,
    pyRound2, pyRoundInt]

/-- C4 amended: per mapping with the slave present, the issued close
volume is `round(slave_volume × closed/original, 2)` raised to
`volume_min`, and the mapping's volume (the value later persisted by
`update_mapping_volume`) becomes the old volume minus that amount — for
EVERY close outcome, successful or not: the result does not depend on
`closeResult`. -/
theorem C4_partial_close_volume (pc : PartialClose) (mapping : PositionMapping)
    (sp : PositionSnapshot) (si : SymbolInfo)
    (closeResult closeResult' : Option TradeResult)
    (h : 0 < pc.original_volume) :
    (handle_partial_close_row pc mapping true (some sp) (some si) closeResult).2
      = some (max si.volume_min
          (pyRound2 (mapping.slave_volume * (pc.closed_volume / pc.original_volume)))) ∧
    (handle_partial_close_row pc mapping true (some sp) (some si) closeResult).1.slave_volume
      = mapping.slave_volume - max si.volume_min
          (pyRound2 (mapping.slave_volume * (pc.closed_volume / pc.original_volume))) ∧
    handle_partial_close_row pc mapping true (some sp) (some si) closeResult
      = handle_partial_close_row pc mapping true (some sp) (some si) closeResult' := by
  have hmax : (if pyRound2 (mapping.slave_volume * (pc.closed_volume / pc.original_volume))
        < si.volume_min then si.volume_min
      else pyRound2 (mapping.slave_volume * (pc.closed_volume / pc.original_volume)))
      = max si.volume_min
        (pyRound2 (mapping.slave_volume * (pc.closed_volume / pc.original_volume))) := by
    split_ifs with hx
    · exact (max_eq_left hx.le).symm
    · exact (max_eq_right (le_of_not_lt hx)).symm
  refine ⟨?_, ?_, rfl⟩
  · simp only [handle_partial_close_row, Bool.true_eq_false, if_false, hmax]
  · simp only [handle_partial_close_row, Bool.true_eq_false, if_false, hmax]

/-- Witness for C4 at the concrete inputs of the counterexample (close
ratio 0.6 of a 0.10 slave volume): issued volume 0.06, persisted volume
0.04, identical for a failed and an absent close result. -/
theorem C4_partial_close_volume_witness :
    (handle_partial_close_row partialC4 mappingC4 true (some posC4) (some siS4)
        (some failedC4)).2
      = some (max siS4.volume_min
          (pyRound2 (mappingC4.slave_volume
            * (partialC4.closed_volume / partialC4.original_volume)))) ∧
    (handle_partial_close_row partialC4 mappingC4 true (some posC4) (some siS4)
        (some failedC4)).1.slave_volume
      = mappingC4.slave_volume - max siS4.volume_min
          (pyRound2 (mappingC4.slave_volume
            * (partialC4.closed_volume / partialC4.original_volume))) ∧
    handle_partial_close_row partialC4 mappingC4 true (some posC4) (some siS4)
        (some failedC4)
      = handle_partial_close_row partialC4 mappingC4 true (some posC4) (some siS4) none :=
  C4_partial_close_volume partialC4 mappingC4 posC4 siS4 (some failedC4) none
    (by norm_num [partialC4])

/-! ### Claim C5 -/

theorem filter_map_fst_of_preserve {α β : Type} (f : α × β → α × β)
    (q q' : α × β → Bool) (l : List (α × β))
    (hf : ∀ p, (f p).1 = p.1) (hq : ∀ p, q (f p) = q' p) :
    ((l.map f).filter q).map Prod.fst = (l.filter q').map Prod.fst := by
  induction l with
  | nil => rfl
  | cons p l ih =>
    simp only [List.map_cons, List.filter_cons, hq]
    cases hqp : q' p <;> simp [hqp, hf p, ih]

theorem lookup_isSome_map_of_preserve {β : Type} (f : String × β → String × β)
    (l : List (String × β)) (hf : ∀ p, (f p).1 = p.1) (a : String) :
    ((l.map f).lookup a).isSome = (l.lookup a).isSome := by
  induction l with
  | nil => rfl
  | cons p l ih =>
    obtain ⟨k, b⟩ := p
    have hk : (f (k, b)).1 = k := hf (k, b)
    simp only [List.map_cons, List.lookup]
    rw [show f (k, b) = ((f (k, b)).1, (f (k, b)).2) from rfl, hk]
    cases hab : a == k
    · simpa [hab] using ih
    · simp [hab]

/-- A connected, enabled slave used in the C5 counterexample. -/
def slaveStateC5 : SlaveExecutorState :=
  { config := { name := "slave1", host := "h" },
    mt5Present := true, initialized := true, connected := true }

/-- The engine's slaves dict of the C5 counterexample. -/
def slavesC5 : Slaves := [("slave1", slaveStateC5)]

/-- C5 counterexample: after `disable_slave "slave1"` the slave's config
shows `enabled = false` and its connection is down, yet processing a new
master position still targets "slave1" with an `open_position` call — the
disabled slave is NOT skipped by `process`. -/
theorem C5_counterexample :
    ((disable_slave slavesC5 "slave1").1.lookup "slave1").map
        (fun s => s.config.enabled) = some false ∧
    ((disable_slave slavesC5 "slave1").1.lookup "slave1").map
        (fun s => s.is_connected) = some false ∧
    handle_new_position_targets (disable_slave slavesC5 "slave1").1 snapEUR
      = ["slave1"] := by
  refine ⟨rfl, rfl, rfl⟩

/-- C5 amended: `disable_slave` flips `enabled` off and shuts the
connection down but leaves the slave in the dict, and the `process`
handlers never consult `enabled`: the list of slaves targeted by the
open handler and the `(slave, ticket)` pairs targeted by the close handler
are exactly the same before and after disabling — executor calls are
still issued to the disabled slave; only its shut-down connection makes
them fail inside the executor. -/
theorem C5_disabled_slave_still_targeted (slaves : Slaves) (name : String)
    (master_pos : PositionSnapshot)
    (position_map : List (Int × List PositionMapping)) (master_ticket : Int) :
    handle_new_position_targets (disable_slave slaves name).1 master_pos
      = handle_new_position_targets slaves master_pos ∧
    handle_close_position_targets (disable_slave slaves name).1 position_map master_ticket
      = handle_close_position_targets slaves position_map master_ticket := by
  by_cases hmem : (slaves.lookup name).isSome
  · have hds : (disable_slave slaves name).1 = slaves.map (fun p =>
        if p.1 = name then
          (p.1, SlaveExecutorState.shutdown
            { p.2 with config := { p.2.config with enabled := false } })
        else p) := by
      simp [disable_slave, hmem]
    have hf : ∀ p : String × SlaveExecutorState,
        ((if p.1 = name then
          (p.1, SlaveExecutorState.shutdown
            { p.2 with config := { p.2.config with enabled := false } })
        else p)).1 = p.1 := by
      intro p
      by_cases hp : p.1 = name <;> simp [hp]
    constructor
    · rw [hds]
      apply filter_map_fst_of_preserve
      · exact hf
      · intro p
        by_cases hp : p.1 = name <;>
          simp [hp, SlaveConfig.should_copy_symbol, SlaveExecutorState.shutdown]
    · rw [hds]
      simp only [handle_close_position_targets]
      cases hpm : position_map.lookup master_ticket with
      | none => rfl
      | some mappings =>
        have hlk : ∀ mp : PositionMapping,
            (((slaves.map (fun p =>
              if p.1 = name then
                (p.1, SlaveExecutorState.shutdown
                  { p.2 with config := { p.2.config with enabled := false } })
              else p)).lookup mp.slave_name).isSome)
            = ((slaves.lookup mp.slave_name).isSome) := by
          intro mp
          exact lookup_isSome_map_of_preserve _ slaves hf mp.slave_name
        simp only [hlk]
  · simp [disable_slave, hmem]
